import Mathlib

/-!
Verification of the Draw.io MCP bridge: a relay correlating JSON-RPC
requests (arriving over STDIO or HTTP POST /rpc) with replies produced by
browser extensions over WebSocket.  The definitions below are a shallow
embedding of the TypeScript sources: `index.ts` (HTTP /rpc handler, tool
registry, WebSocket pool and broadcast), `tool.ts` (`default_tool`),
`emitter_bus.ts` (`create_bus`) and `events.ts` (`strip_internal_fields`).
-/

namespace DrawioMcp

/-- JSON values as produced by `JSON.parse`; numbers are modelled as
integers (no claim here depends on fractional numerics). -/
inductive Json where
  | null : Json
  | bool (b : Bool) : Json
  | num (n : Int) : Json
  | str (s : String) : Json
  | arr (elems : List Json) : Json
  | obj (fields : List (String × Json)) : Json

/-- Property access `j.k` on a parsed JSON value: defined (`some`) exactly
when `j` is an object with a field named `k` (first occurrence wins, as in
a JS object where keys are unique); `none` models `undefined`. -/
def jsonGet (j : Json) (k : String) : Option Json :=
  match j with
  | .obj fields => fields.lookup k
  | _ => none

/-- JavaScript truthiness of a defined JSON value. -/
def jsTruthy : Json → Bool
  | .null => false
  | .bool b => b
  | .num n => n != 0
  | .str s => s ≠ ""
  | .arr _ => true
  | .obj _ => true

/-- The JS expression `a || b` where `a` is a possibly-undefined JSON value
(`none` models `undefined`). -/
def jsOr (a : Option Json) (b : Json) : Json :=
  match a with
  | some v => if jsTruthy v then v else b
  | none => b

/-- JS object property assignment `m[k] = v` on an object represented as an
association list: if the key is present its value is replaced in place
(key order preserved), otherwise the key is appended. -/
def recordSet {α : Type} (m : List (String × α)) (k : String) (v : α) : List (String × α) :=
  match m with
  | [] => [(k, v)]
  | (k', v') :: rest => if k' = k then (k, v) :: rest else (k', v') :: recordSet rest k v

/-! ## `tool.ts`: `default_tool`

`default_tool(name, context)` returns a handler that generates an id,
registers `handleReply` on the `BUS_REPLY` stream, arms a 30-second
timeout, and sends the request.  We embed the per-call bookkeeping as an
explicit state (`PendingState`) and the two callbacks from the source as
state transformers: `fireTimeout` (the `setTimeout` callback, lines 20-23)
and `deliverReply` (`handleReply`, lines 25-42). -/

/-- `ErrorCode.InternalError` from the MCP SDK, used by both the timeout
and the error branch of `handleReply` in `tool.ts`. -/
def internalErrorCode : Int := -32603

/-- The 30000 ms timeout armed by `default_tool` (`tool.ts` line 23). -/
def toolCallTimeoutMillis : Nat := 30000

/-- Settled outcome of a `default_tool` promise: `resolved` carries the
`CallToolResult` value passed to `resolve`, `rejected` the `McpError`
(code plus the error payload) passed to `reject`. -/
inductive ToolOutcome where
  | resolved (v : Json) : ToolOutcome
  | rejected (code : Int) (data : Json) : ToolOutcome

/-- The fallback content produced when the reply's result has no (truthy)
`content` field (`tool.ts` lines 37-39). -/
def defaultContent (name : String) : Json :=
  Json.arr [Json.obj [("type", Json.str "text"),
                      ("text", Json.str ("Success: Tool " ++ name ++ " executed"))]]

/-- The value passed to `resolve` by `handleReply` (`tool.ts` lines 36-41):
`content` is `response.result?.content || <default>`, `isError` is
`response.result?.isError || false`.  `result` is the (possibly absent)
`result` field of the reply. -/
def toolResolve (name : String) (result : Option Json) : Json :=
  Json.obj [("content", jsOr (result.bind (fun r => jsonGet r "content")) (defaultContent name)),
            ("isError", jsOr (result.bind (fun r => jsonGet r "isError")) (Json.bool false))]

/-- The outcome a matching reply settles the promise with (`tool.ts` lines
31-41): if `response.error` is truthy, reject with an internal `McpError`
carrying that payload, else resolve with `toolResolve`. -/
def settleOf (name : String) (r : Json) : ToolOutcome :=
  match jsonGet r "error" with
  | some e =>
      if jsTruthy e then ToolOutcome.rejected internalErrorCode e
      else ToolOutcome.resolved (toolResolve name (jsonGet r "result"))
  | none => ToolOutcome.resolved (toolResolve name (jsonGet r "result"))

/-- The timeout rejection (`tool.ts` lines 21-22). -/
def timeoutOutcome (name : String) : ToolOutcome :=
  ToolOutcome.rejected internalErrorCode
    (Json.str ("Timeout waiting for tool response for " ++ name))

/-- Per-call state of one `default_tool` invocation: whether `handleReply`
is still registered on the emitter, whether the `setTimeout` timer is
still armed, and the settled promise outcome (`none` while pending).
Promises settle at most once: a second `resolve`/`reject` is a no-op. -/
structure PendingState where
  listenerRegistered : Bool
  timerActive : Bool
  settled : Option ToolOutcome

/-- State right after `default_tool` registered `handleReply`, armed the
timer and published the request. -/
def initPending : PendingState :=
  { listenerRegistered := true, timerActive := true, settled := none }

/-- First settlement wins (JS promises settle at most once). -/
def settleOnce (cur : Option ToolOutcome) (o : ToolOutcome) : Option ToolOutcome :=
  match cur with
  | some x => some x
  | none => some o

/-- The `setTimeout` callback of `default_tool` (`tool.ts` lines 20-23):
it logs and calls `reject`; it does NOT call `emitter.off`, so the
listener registration is left in place. -/
def fireTimeout (name : String) (s : PendingState) : PendingState :=
  if s.timerActive then
    { listenerRegistered := s.listenerRegistered,
      timerActive := false,
      settled := settleOnce s.settled (timeoutOutcome name) }
  else s

/-- `handleReply` (`tool.ts` lines 25-42) run on one emission of the
`BUS_REPLY` stream: a no-op unless still registered; returns early when
`response.id !== id`; otherwise clears the timer, removes itself from the
emitter (`emitter.off`) and settles the promise. -/
def deliverReply (name id : String) (r : Json) (s : PendingState) : PendingState :=
  if s.listenerRegistered then
    match jsonGet r "id" with
    | some (Json.str rid) =>
        if rid = id then
          { listenerRegistered := false,
            timerActive := false,
            settled := settleOnce s.settled (settleOf name r) }
        else s
    | _ => s
  else s

/-- Run one `default_tool` call against a time-stamped trace of `BUS_REPLY`
emissions (times in ms since the call was issued, listed in arrival
order): emissions before the 30000 ms deadline are delivered, then the
timer fires, then the late emissions are delivered. -/
def runCall (name id : String) (events : List (Nat × Json)) : PendingState :=
  let early := events.filter (fun e => decide (e.1 < toolCallTimeoutMillis))
  let late := events.filter (fun e => decide (¬ e.1 < toolCallTimeoutMillis))
  let s1 := early.foldl (fun s e => deliverReply name id e.2 s) initPending
  let s2 := fireTimeout name s1
  late.foldl (fun s e => deliverReply name id e.2 s) s2

/-! ## `index.ts`: HTTP `POST /rpc` handler

The handler (lines 40-91) rejects a body without an `id`, answers
`tools/list` from `toolRegistry`, and otherwise registers a
`emitter.once(bus_reply_stream, ...)` waiter with a method-dependent
timeout.  Because `once` removes the listener after the FIRST emission of
the stream — whether or not the inner `response.id === json.id` check
passed — the waiter's outcome is decided by the first `BUS_REPLY`
emission after registration (or by the timer if none arrives in time);
`httpWait` embeds exactly that. -/

/-- A JSON-RPC envelope as read from the request body; a missing or empty
`id` is modelled as `""` (both are falsy for the `!json.id` check). -/
structure JsonRpcRequest where
  jsonrpc : String
  method : String
  id : String
  params : Option Json

/-- Result of the `POST /rpc` handler. -/
inductive RpcOut where
  | missingId : RpcOut
  | toolsList (tools : List (String × String × List String)) : RpcOut
  | reply (response : Json) : RpcOut
  | rpcError (code : Int) (message : String) : RpcOut

/-- The 25000 ms timeout of the `tools/call` branch (`index.ts` line 64). -/
def httpCallTimeoutMillis : Nat := 25000

/-- The 5000 ms timeout of the fall-through branch (`index.ts` line 82). -/
def httpOtherTimeoutMillis : Nat := 5000

/-- One `emitter.once(bus_reply_stream, ...)` waiter racing a timer:
`events` is the time-stamped trace of `BUS_REPLY` emissions after the
waiter was registered, in arrival order.  The `once` listener fires on
the first emission only; it resolves with the whole response exactly when
that response carries the matching string `id` and arrives before the
deadline, and in every other case the timer resolves with `onTimeout`. -/
def httpWait (deadline : Nat) (onTimeout : RpcOut) (id : String)
    (events : List (Nat × Json)) : RpcOut :=
  match events with
  | [] => onTimeout
  | (t, r) :: _ =>
    match jsonGet r "id" with
    | some (Json.str rid) => if rid = id ∧ t < deadline then RpcOut.reply r else onTimeout
    | _ => onTimeout

/-- The `POST /rpc` handler (`index.ts` lines 40-91).  `reg` is the
`toolRegistry` record as an insertion-ordered association list of
`(name, description, parameter keys)`. -/
def rpcResponse (reg : List (String × String × List String)) (json : JsonRpcRequest)
    (events : List (Nat × Json)) : RpcOut :=
  if json.id = "" then RpcOut.missingId
  else if json.method = "tools/list" then RpcOut.toolsList reg
  else if json.method = "tools/call" then
    httpWait httpCallTimeoutMillis
      (RpcOut.rpcError (-32000) "Timeout waiting for tool response") json.id events
  else
    httpWait httpOtherTimeoutMillis
      (RpcOut.rpcError (-32001) "Unhandled method") json.id events

/-! ## `index.ts`: tool registry

`registerTool` (lines 27-30) registers each tool on BOTH surfaces in one
step: `server.tool(...)` for STDIO and `toolRegistry[name] = ...` for the
HTTP `tools/list` branch.  The zod parameter schemas are abstracted to
their declared field-name lists (the claims concern tool names only). -/

/-- The two tool surfaces: the MCP server's STDIO registration list
(`server.tool` appends) and the HTTP `toolRegistry` record. -/
structure ServerState where
  stdioTools : List (String × String × List String)
  toolRegistry : List (String × String × List String)

def emptyServer : ServerState :=
  { stdioTools := [], toolRegistry := [] }

/-- `registerTool(name, description, parameters, handler)` (`index.ts`
lines 27-30): one call populates both surfaces. -/
def registerTool (name description : String) (params : List String)
    (s : ServerState) : ServerState :=
  { stdioTools := s.stdioTools ++ [(name, description, params)],
    toolRegistry := recordSet s.toolRegistry name (description, params) }

/-- Run a sequence of `registerTool` declarations from the empty state. -/
def applyRegs (ds : List (String × String × List String)) : ServerState :=
  ds.foldl (fun s d => registerTool d.1 d.2.1 d.2.2 s) emptyServer

/-- The ten `registerTool` calls executed at startup (`index.ts` lines
104-143), in source order. -/
def startupDecls : List (String × String × List String) :=
  [("get-selected-cell", "Get the currently selected diagram cell.", []),
   ("add-rectangle", "Add a labeled rectangle shape.",
     ["x", "y", "width", "height", "text", "style"]),
   ("add-edge", "Create a connector (edge).",
     ["source_id", "target_id", "text", "style"]),
   ("delete-cell-by-id", "Delete a diagram cell.", ["cell_id"]),
   ("get-shape-categories", "List all shape categories.", []),
   ("get-shapes-in-category", "List shapes in a category.", ["category_id"]),
   ("get-shape-by-name", "Get shape by name.", ["shape_name"]),
   ("get-all-cells-detailed", "Returns all shapes from the current diagram.", []),
   ("get-edge-labels", "Returns edges from the current diagram.", []),
   ("add-cell-of-shape", "Add shape-based vertex.",
     ["shape_name", "x", "y", "width", "height", "text", "style"])]

def startupServer : ServerState := applyRegs startupDecls

/-! ## `index.ts`: WebSocket pool

`conns` is the connection array; the `bus_request_stream` listener (lines
172-175) runs `conns.forEach((ws) => ws.send(JSON.stringify(event)))`.
In uWebSockets.js, `ws.send` on a socket still in `conns` returns a
numeric backpressure/drop status and does not throw (the `close` handler
removes a socket from `conns` before its handle becomes invalid, and the
synchronous `forEach` cannot interleave with `close` events), so a "send
failure" is a non-success status.  The broadcast neither inspects the
status nor modifies `conns`. -/

/-- A pooled WebSocket connection: its identity and the status its
`send` reports for the broadcast under consideration. -/
structure WsConn where
  connId : Nat
  sendStatus : Nat
deriving DecidableEq

/-- The `bus_request_stream` broadcast (`index.ts` lines 172-175): sends
the event to every member of `conns` in order, collecting each send's
`(connection, status, payload)`; the connection list is returned
unchanged (nothing removes a member here). -/
def broadcastRequest (conns : List WsConn) (event : Json) :
    List (Nat × Nat × Json) × List WsConn :=
  (conns.map (fun c => (c.connId, c.sendStatus, event)), conns)

/-! ## `index.ts`: WebSocket `message` handler

Lines 149-164: `JSON.parse` inside `try`; on success, messages whose
`method` is not the handshake sentinel `client-ready` are emitted on the
`BUS_REPLY` stream (and, when both `id` and `result` are truthy, also
persisted to a scratch file — the `/tmp` path naming is elided here);
parse failures are logged and swallowed by the `catch`. -/

/-- Observable effects of one run of the `message` handler. -/
structure WsEffects where
  emitted : List Json
  savedFile : Option Json
  loggedInvalid : Bool

/-- The non-handshake branch of the `message` handler: emit the parsed
message on `BUS_REPLY`; additionally save it when `json.id && json.result`
is truthy. -/
def wsDispatchReply (j : Json) : WsEffects :=
  { emitted := [j],
    savedFile :=
      match jsonGet j "id", jsonGet j "result" with
      | some i, some r => if jsTruthy i && jsTruthy r then some j else none
      | _, _ => none,
    loggedInvalid := false }

/-- The `message` handler (`index.ts` lines 149-164), applied to the
outcome of `JSON.parse` on the frame (`none` models a parse failure
caught by the `try`/`catch`).  The frame `"null"` parses successfully to
`null`, but the subsequent property access `json.method` then throws a
`TypeError` which the same `catch` logs and drops, so a parsed `null`
takes the logged-and-dropped path too; every other parsed value is a
non-null primitive or object, on which `json.method` merely evaluates to
`undefined` when absent. -/
def wsOnMessage (parsed : Option Json) : WsEffects :=
  match parsed with
  | none => { emitted := [], savedFile := none, loggedInvalid := true }
  | some Json.null => { emitted := [], savedFile := none, loggedInvalid := true }
  | some j =>
    match jsonGet j "method" with
    | some (Json.str m) =>
        if m = "client-ready" then { emitted := [], savedFile := none, loggedInvalid := false }
        else wsDispatchReply j
    | _ => wsDispatchReply j

/-! ## `emitter_bus.ts`: `create_bus`

`on_reply_from_extension(event_name, listener)` (lines 50-60) registers a
wrapper on the single `BUS_REPLY` stream; every emission of that stream
reaches every wrapper, and each wrapper, given truthy data, mutates
`data.__event` to its own registration name and invokes its listener.
Replies are modelled as JS objects (association lists); `none` models a
falsy emission, which the `if (data)` guard drops. -/

/-- One emission of the `BUS_REPLY` stream delivered through the wrappers
installed by `on_reply_from_extension`.  `regs` lists the registrations
`(event_name, listener)` in registration order (listeners are named by
`Nat` tags); the result is the call trace: which listener was invoked,
and with which object value at call time. -/
def onReplyEmission (regs : List (String × Nat))
    (data : Option (List (String × Json))) : List (Nat × List (String × Json)) :=
  match data with
  | none => []
  | some r => regs.map (fun p => (p.2, recordSet r "__event" (Json.str p.1)))

/-! ## `events.ts`: `strip_internal_fields`

Builds a fresh object holding exactly the input's own enumerable keys
that do not start with `"__"`, each bound to its input value; the input
object is only read, never written. -/

/-- `s.startsWith(pre)` of JavaScript strings, phrased over the character
lists so that it evaluates by kernel reduction. -/
def strStartsWith (s pre : String) : Bool :=
  pre.data.isPrefixOf s.data

def strip_internal_fields (obj : List (String × Json)) : List (String × Json) :=
  obj.filter (fun kv => !(strStartsWith kv.1 "__"))

/-! ## Helper lemmas about the association-list primitives -/

theorem beq_false_of_ne {a b : String} (h : ¬ a = b) : (a == b) = false :=
  beq_eq_false_iff_ne.mpr h

theorem lookup_recordSet_self {α : Type} (m : List (String × α)) (k : String) (v : α) :
    (recordSet m k v).lookup k = some v := by
  induction m with
  | nil => simp [recordSet, List.lookup]
  | cons hd tl ih =>
    obtain ⟨k', v'⟩ := hd
    by_cases hk : k' = k
    · simp [recordSet, hk, List.lookup]
    · simp [recordSet, hk, List.lookup, ih, beq_false_of_ne (Ne.symm hk)]

theorem lookup_recordSet_ne {α : Type} (m : List (String × α)) (k k2 : String) (v : α)
    (h : ¬ k2 = k) : (recordSet m k v).lookup k2 = m.lookup k2 := by
  induction m with
  | nil => simp [recordSet, List.lookup, beq_false_of_ne h]
  | cons hd tl ih =>
    obtain ⟨k', v'⟩ := hd
    by_cases hk : k' = k
    · subst hk
      simp [recordSet, List.lookup, beq_false_of_ne h]
    · by_cases h2 : k2 = k'
      · simp [recordSet, hk, List.lookup, h2]
      · simp [recordSet, hk, List.lookup, beq_false_of_ne h2, ih]

theorem mem_keys_recordSet {α : Type} (m : List (String × α)) (k n : String) (v : α) :
    n ∈ (recordSet m k v).map Prod.fst ↔ n = k ∨ n ∈ m.map Prod.fst := by
  induction m with
  | nil => simp [recordSet]
  | cons hd tl ih =>
    obtain ⟨k', v'⟩ := hd
    by_cases hk : k' = k
    · subst hk
      simp [recordSet]
    · simp [recordSet, hk, ih]
      tauto

theorem lookup_filter_true (p : String → Bool) (obj : List (String × Json)) (k : String)
    (h : p k = true) :
    (obj.filter (fun kv => p kv.1)).lookup k = obj.lookup k := by
  induction obj with
  | nil => simp
  | cons hd tl ih =>
    obtain ⟨k', v'⟩ := hd
    by_cases hk : k = k'
    · subst hk
      simp [List.filter, h, List.lookup]
    · by_cases hp : p k' = true
      · simp [List.filter, hp, List.lookup, beq_false_of_ne hk, ih]
      · simp only [Bool.not_eq_true] at hp
        simp [List.filter, hp, List.lookup, beq_false_of_ne hk, ih]

theorem lookup_filter_false (p : String → Bool) (obj : List (String × Json)) (k : String)
    (h : p k = false) :
    (obj.filter (fun kv => p kv.1)).lookup k = none := by
  induction obj with
  | nil => simp
  | cons hd tl ih =>
    obtain ⟨k', v'⟩ := hd
    by_cases hk : k = k'
    · subst hk
      simp [List.filter, h, ih]
    · by_cases hp : p k' = true
      · simp [List.filter, hp, List.lookup, beq_false_of_ne hk, ih]
      · simp only [Bool.not_eq_true] at hp
        simp [List.filter, hp, ih]

/-! ## Concrete values used across the claim theorems -/

/-- A well-formed reply envelope from the extension: `{jsonrpc, id, result}`. -/
def replyEnvelope (rid : String) (payload : Json) : Json :=
  Json.obj [("jsonrpc", Json.str "2.0"), ("id", Json.str rid), ("result", payload)]

/-- Reply trace for the C1 scenario: a reply for id `"a"` at 1000 ms,
then a reply for id `"b"` at 2000 ms — both far inside every deadline. -/
def crossTalkEvents : List (Nat × Json) :=
  [(1000, replyEnvelope "a" (Json.str "ra")), (2000, replyEnvelope "b" (Json.str "rb"))]

/-! ## C1 -/

/-- C1: two HTTP `/rpc` `tools/call` waiters with distinct ids `"a"` and
`"b"` are pending over the same `BUS_REPLY` stream; replies for both
arrive in order, well within the 25 s deadline.  The `"a"` waiter
resolves with its reply, but delivering `"a"`'s reply consumes `"b"`'s
`emitter.once` listener (the `response.id === json.id` check cannot
re-arm a `once` listener), so the `"b"` waiter can no longer be resolved
by the later `"b"` reply and times out with code -32000 — the waiter for
the second id does NOT remain registered, contradicting the claim. -/
theorem http_waiters_cross_talk :
    rpcResponse startupServer.toolRegistry
        { jsonrpc := "2.0", method := "tools/call", id := "a", params := none }
        crossTalkEvents
      = RpcOut.reply (replyEnvelope "a" (Json.str "ra"))
    ∧ rpcResponse startupServer.toolRegistry
        { jsonrpc := "2.0", method := "tools/call", id := "b", params := none }
        crossTalkEvents
      = RpcOut.rpcError (-32000) "Timeout waiting for tool response" :=
  ⟨rfl, rfl⟩

/-! ## C2 -/

/-- C2 counterexample: when the 30 s timeout of a pending
`get-selected-cell` call fires, the promise is rejected with the timeout
error but `handleReply` is still registered on the bus — the timeout
callback in `tool.ts` never calls `emitter.off`, so the waiter
registration is NOT removed; moreover a stale reply with id `"x"`
delivered while a later call that reused id `"x"` is pending settles
that later call with the stale payload, so a late reply is not "without
any effect" on an id-reusing call either. -/
theorem timeout_keeps_listener_registered :
    (fireTimeout "get-selected-cell" initPending).listenerRegistered = true
    ∧ (fireTimeout "get-selected-cell" initPending).settled
        = some (timeoutOutcome "get-selected-cell")
    ∧ (deliverReply "get-selected-cell" "x" (replyEnvelope "x" (Json.str "stale"))
        initPending).settled
        = some (settleOf "get-selected-cell" (replyEnvelope "x" (Json.str "stale"))) :=
  ⟨rfl, rfl, rfl⟩

/-- C2 amended: the timeout never removes the reply listener
(`fireTimeout` leaves the registration flag of any state untouched); a
reply arriving after the timeout can never change the timed-out call's
already-settled outcome (first settlement wins); but because replies are
matched by ID alone, the same stale reply DOES settle a later call that
reuses the ID and is still pending — the source has no guard against
this. -/
theorem late_reply_discarded (name1 name2 id : String) (r : Json) (s1 : PendingState)
    (o : ToolOutcome) (h1 : s1.settled = some o)
    (hid : jsonGet r "id" = some (Json.str id)) :
    (∀ s : PendingState, (fireTimeout name1 s).listenerRegistered = s.listenerRegistered)
    ∧ (deliverReply name1 id r s1).settled = some o
    ∧ (deliverReply name2 id r initPending).settled = some (settleOf name2 r) := by
  refine ⟨?_, ?_, ?_⟩
  · intro s
    by_cases hta : s.timerActive <;> simp [fireTimeout, hta]
  · by_cases hreg : s1.listenerRegistered
    · simp [deliverReply, hreg, hid, settleOnce, h1]
    · simp [deliverReply, hreg, h1]
  · simp [deliverReply, initPending, hid, settleOnce]

/-- Witness for `late_reply_discarded`: the timeout leaves the listener
flag of the initial state untouched; a `get-selected-cell` call with id
`"x"` that has already timed out keeps its timeout outcome when a late
matching reply arrives; and a fresh pending call with the same id is
settled by that stale reply. -/
theorem late_reply_discarded_witness :
    (fireTimeout "get-selected-cell" initPending).listenerRegistered
      = initPending.listenerRegistered
    ∧ (deliverReply "get-selected-cell" "x" (replyEnvelope "x" (Json.str "v"))
        (fireTimeout "get-selected-cell" initPending)).settled
      = some (timeoutOutcome "get-selected-cell")
    ∧ (deliverReply "get-selected-cell" "x" (replyEnvelope "x" (Json.str "v"))
        initPending).settled
      = some (settleOf "get-selected-cell" (replyEnvelope "x" (Json.str "v"))) :=
  ⟨(late_reply_discarded "get-selected-cell" "get-selected-cell" "x"
      (replyEnvelope "x" (Json.str "v")) (fireTimeout "get-selected-cell" initPending)
      (timeoutOutcome "get-selected-cell") rfl rfl).1 initPending,
   (late_reply_discarded "get-selected-cell" "get-selected-cell" "x"
      (replyEnvelope "x" (Json.str "v")) (fireTimeout "get-selected-cell" initPending)
      (timeoutOutcome "get-selected-cell") rfl rfl).2.1,
   (late_reply_discarded "get-selected-cell" "get-selected-cell" "x"
      (replyEnvelope "x" (Json.str "v")) (fireTimeout "get-selected-cell" initPending)
      (timeoutOutcome "get-selected-cell") rfl rfl).2.2⟩

/-! ## C4 -/

/-- Connection pool for the C4 scenario: connection 2's `send` reports
failure (status 0) while connections 1 and 3 succeed. -/
def demoConns : List WsConn :=
  [{ connId := 1, sendStatus := 1 }, { connId := 2, sendStatus := 0 },
   { connId := 3, sendStatus := 1 }]

/-- C4 counterexample: during a broadcast in which connection 2's send
fails, the connection list afterwards is unchanged and the failing
connection 2 is still a member — the broadcast listener contains no
removal logic, refuting the claim's "failing connection is removed from
the set" conjunct. -/
theorem failing_conn_not_removed :
    (broadcastRequest demoConns (Json.str "req")).2 = demoConns
    ∧ ({ connId := 2, sendStatus := 0 } : WsConn)
        ∈ (broadcastRequest demoConns (Json.str "req")).2 :=
  ⟨rfl, by decide⟩

/-- C4 amended: a send failure on one connection does not prevent the
request from being sent to every remaining connection — each member of
the set gets its own send attempt with the full payload — but the
failing connection is NOT removed: the broadcast leaves the connection
set exactly as it was (removal happens only in the `close` handler). -/
theorem broadcast_attempts_all (conns : List WsConn) (event : Json) (c : WsConn)
    (h : c ∈ conns) :
    (c.connId, c.sendStatus, event) ∈ (broadcastRequest conns event).1
    ∧ c ∈ (broadcastRequest conns event).2 := by
  constructor
  · exact List.mem_map.mpr ⟨c, h, rfl⟩
  · simpa [broadcastRequest] using h

/-- Witness for `broadcast_attempts_all`: connection 3, listed after the
failing connection 2, still gets its send attempt, and remains pooled. -/
theorem broadcast_attempts_all_witness :
    (3, 1, Json.str "req") ∈ (broadcastRequest demoConns (Json.str "req")).1
    ∧ ({ connId := 3, sendStatus := 1 } : WsConn)
        ∈ (broadcastRequest demoConns (Json.str "req")).2 :=
  broadcast_attempts_all demoConns (Json.str "req")
    { connId := 3, sendStatus := 1 } (by decide)

/-! ## C7 -/

/-- C7: broadcasting a published request to an empty connection set is a
total no-op (no send attempts, set unchanged, nothing thrown), and the
pending `default_tool` call that published it, receiving no reply
emissions at all, settles at its 30 s deadline with the structured
internal timeout error naming the tool — not a hang and not a crash. -/
theorem empty_broadcast_then_timeout (event : Json) (name id : String) :
    broadcastRequest [] event = ([], [])
    ∧ (runCall name id []).settled = some (timeoutOutcome name) :=
  ⟨rfl, rfl⟩

/-! ## C3 -/

/-- The result payload of the spec's `get-selected-cell` scenario. -/
def selectedCellResult : Json :=
  Json.obj [("id", Json.str "cell-1"),
            ("geometry", Json.obj [("x", Json.num 10), ("y", Json.num 10),
                                   ("width", Json.num 40), ("height", Json.num 20)])]

/-- The extension's reply carrying `selectedCellResult`, id `"req1"`. -/
def selectedCellReply : Json :=
  Json.obj [("jsonrpc", Json.str "2.0"), ("id", Json.str "req1"),
            ("result", selectedCellResult)]

/-- C3 counterexample: a matching, non-error reply for `get-selected-cell`
arrives at 1000 ms — well before the 30 s timeout — carrying the result
`{id: "cell-1", geometry: {...}}`.  Since that result has no `content`
field, `handleReply` resolves with a rewrapped `CallToolResult` whose
content is the generic "Success: Tool get-selected-cell executed" text;
the caller does NOT receive the reply's result payload unchanged. -/
theorem result_not_returned_unchanged :
    (runCall "get-selected-cell" "req1" [(1000, selectedCellReply)]).settled
      = some (ToolOutcome.resolved
          (Json.obj [("content", defaultContent "get-selected-cell"),
                     ("isError", Json.bool false)]))
    ∧ ¬ (runCall "get-selected-cell" "req1" [(1000, selectedCellReply)]).settled
        = some (ToolOutcome.resolved selectedCellResult) := by
  have h : (runCall "get-selected-cell" "req1" [(1000, selectedCellReply)]).settled
      = some (ToolOutcome.resolved
          (Json.obj [("content", defaultContent "get-selected-cell"),
                     ("isError", Json.bool false)])) := rfl
  refine ⟨h, ?_⟩
  rw [h]
  simp [defaultContent, selectedCellResult]

/-- C3 amended: a matching non-error reply before the timeout resolves the
call with the `CallToolResult` built by `toolResolve`: its `content` is
the result's `content` field when that field is present and truthy
(preserved as-is), and the generic success text otherwise; its `isError`
is the result's `isError` when truthy and `false` otherwise.  The raw
result payload is not itself the resolved value. -/
theorem call_tool_result_shape (name id : String) (r result c : Json) (t : Nat)
    (ht : t < toolCallTimeoutMillis)
    (hid : jsonGet r "id" = some (Json.str id))
    (herr : jsonGet r "error" = none)
    (hres : jsonGet r "result" = some result) :
    (runCall name id [(t, r)]).settled
      = some (ToolOutcome.resolved (toolResolve name (some result)))
    ∧ (jsonGet result "content" = some c → jsTruthy c = true →
        jsonGet (toolResolve name (some result)) "content" = some c)
    ∧ (jsonGet result "content" = none →
        jsonGet (toolResolve name (some result)) "content"
          = some (defaultContent name))
    ∧ (jsonGet result "isError" = none →
        jsonGet (toolResolve name (some result)) "isError" = some (Json.bool false)) := by
  have hcontent : jsonGet (toolResolve name (some result)) "content"
      = some (jsOr (jsonGet result "content") (defaultContent name)) := rfl
  have hisError : jsonGet (toolResolve name (some result)) "isError"
      = some (jsOr (jsonGet result "isError") (Json.bool false)) := rfl
  have hb : decide (t < toolCallTimeoutMillis) = true := decide_eq_true ht
  have hb2 : decide (¬ t < toolCallTimeoutMillis) = false := by simp [ht]
  have hb3 : decide (toolCallTimeoutMillis ≤ t) = false :=
    decide_eq_false (Nat.not_le.mpr ht)
  refine ⟨?_, ?_, ?_, ?_⟩
  · simp [runCall, List.filter, hb, hb2, hb3, deliverReply, initPending, hid, settleOnce,
          settleOf, herr, hres, fireTimeout]
  · intro hc htr
    rw [hcontent, hc]
    simp [jsOr, htr]
  · intro hc
    rw [hcontent, hc]
    simp [jsOr]
  · intro hie
    rw [hisError, hie]
    simp [jsOr]

/-- A reply whose result carries a truthy `content` array, for the
`call_tool_result_shape` witness. -/
def contentResult : Json :=
  Json.obj [("content", Json.arr [Json.obj [("type", Json.str "text"),
                                            ("text", Json.str "hello")]])]

/-- Witness for `call_tool_result_shape`: a reply with id `"req2"` and a
result carrying explicit content settles the call resolved, and that
content comes through unchanged. -/
theorem call_tool_result_shape_witness :
    (runCall "add-rectangle" "req2" [(500, replyEnvelope "req2" contentResult)]).settled
      = some (ToolOutcome.resolved (toolResolve "add-rectangle" (some contentResult)))
    ∧ jsonGet (toolResolve "add-rectangle" (some contentResult)) "content"
      = some (Json.arr [Json.obj [("type", Json.str "text"),
                                  ("text", Json.str "hello")]]) :=
  ⟨(call_tool_result_shape "add-rectangle" "req2" (replyEnvelope "req2" contentResult)
      contentResult (Json.arr [Json.obj [("type", Json.str "text"),
                                         ("text", Json.str "hello")]]) 500
      (by decide) rfl rfl rfl).1,
   (call_tool_result_shape "add-rectangle" "req2" (replyEnvelope "req2" contentResult)
      contentResult (Json.arr [Json.obj [("type", Json.str "text"),
                                         ("text", Json.str "hello")]]) 500
      (by decide) rfl rfl rfl).2.1 rfl rfl⟩

/-! ## C5 -/

/-- An `emitter.once` waiter times out whenever no emission carrying its
id arrives before its deadline (whatever else arrives first merely
consumes the listener, which also leads to the timeout). -/
theorem httpWait_timeout (deadline : Nat) (onT : RpcOut) (id : String)
    (events : List (Nat × Json))
    (h : ∀ e ∈ events, jsonGet e.2 "id" = some (Json.str id) → deadline ≤ e.1) :
    httpWait deadline onT id events = onT := by
  cases events with
  | nil => rfl
  | cons e rest =>
    obtain ⟨t, r⟩ := e
    simp only [httpWait]
    cases hg : jsonGet r "id" with
    | none => rfl
    | some v =>
      cases v with
      | str rid =>
        show (if rid = id ∧ t < deadline then RpcOut.reply r else onT) = onT
        by_cases hr : rid = id
        · have hle := h (t, r) (List.mem_cons_self _ _) (by rw [hg, hr])
          rw [if_neg]
          intro hand
          exact absurd hand.2 (Nat.not_lt.mpr hle)
        · rw [if_neg]
          intro hand
          exact hr hand.1
      | null => rfl
      | bool b => rfl
      | num n => rfl
      | arr l => rfl
      | obj f => rfl

/-- C5: a `tools/call` envelope whose id gets no matching reply emission
within 25000 ms is answered with JSON-RPC error -32000, and an envelope
with any method other than `tools/list` and `tools/call` whose id gets no
matching reply within 5000 ms is answered with error -32001. -/
theorem rpc_timeout_error_codes (reg : List (String × String × List String))
    (j : JsonRpcRequest) (events : List (Nat × Json)) (hid : ¬ j.id = "") :
    (j.method = "tools/call" →
      (∀ e ∈ events, jsonGet e.2 "id" = some (Json.str j.id) → httpCallTimeoutMillis ≤ e.1) →
      rpcResponse reg j events = RpcOut.rpcError (-32000) "Timeout waiting for tool response")
    ∧ (¬ j.method = "tools/list" → ¬ j.method = "tools/call" →
      (∀ e ∈ events, jsonGet e.2 "id" = some (Json.str j.id) → httpOtherTimeoutMillis ≤ e.1) →
      rpcResponse reg j events = RpcOut.rpcError (-32001) "Unhandled method") := by
  constructor
  · intro hm hn
    have hl : ¬ j.method = "tools/list" := by rw [hm]; decide
    simp only [rpcResponse, if_neg hid, if_neg hl, if_pos hm]
    exact httpWait_timeout _ _ _ _ hn
  · intro hl hc hn
    simp only [rpcResponse, if_neg hid, if_neg hl, if_neg hc]
    exact httpWait_timeout _ _ _ _ hn

/-- Witness for `rpc_timeout_error_codes`: with no reply emissions at all,
a `tools/call` envelope gets -32000 and a `diagram/ping` envelope gets
-32001. -/
theorem rpc_timeout_error_codes_witness :
    rpcResponse startupServer.toolRegistry
        { jsonrpc := "2.0", method := "tools/call", id := "w1", params := none } []
      = RpcOut.rpcError (-32000) "Timeout waiting for tool response"
    ∧ rpcResponse startupServer.toolRegistry
        { jsonrpc := "2.0", method := "diagram/ping", id := "w2", params := none } []
      = RpcOut.rpcError (-32001) "Unhandled method" :=
  ⟨(rpc_timeout_error_codes startupServer.toolRegistry
      { jsonrpc := "2.0", method := "tools/call", id := "w1", params := none } []
      (by decide)).1 rfl
      (by intro e he; exact absurd he (List.not_mem_nil e)),
   (rpc_timeout_error_codes startupServer.toolRegistry
      { jsonrpc := "2.0", method := "diagram/ping", id := "w2", params := none } []
      (by decide)).2 (by decide) (by decide)
      (by intro e he; exact absurd he (List.not_mem_nil e))⟩

/-! ## C6 -/

/-- Invariant of `registerTool` folds: if a state's registry and STDIO
surfaces carry the same tool-name set, they still do after any further
sequence of `registerTool` steps. -/
theorem applyRegs_keys_aux (ds : List (String × String × List String)) :
    ∀ s : ServerState,
      (∀ n, n ∈ s.toolRegistry.map Prod.fst ↔ n ∈ s.stdioTools.map Prod.fst) →
      ∀ n, n ∈ (ds.foldl (fun s d => registerTool d.1 d.2.1 d.2.2 s) s).toolRegistry.map Prod.fst
        ↔ n ∈ (ds.foldl (fun s d => registerTool d.1 d.2.1 d.2.2 s) s).stdioTools.map Prod.fst := by
  induction ds with
  | nil => intro s h n; exact h n
  | cons d rest ih =>
    intro s h n
    simp only [List.foldl_cons]
    apply ih
    intro m
    simp only [registerTool]
    rw [mem_keys_recordSet]
    simp only [List.map_append, List.mem_append, List.map_cons, List.map_nil,
               List.mem_cons, List.not_mem_nil, or_false]
    rw [h m]
    tauto

/-- C6: for any sequence of `registerTool` declarations, the HTTP
`tools/list` branch answers with exactly the `toolRegistry`, and the
registry's tool-name set coincides with the set of names registered on
the STDIO `McpServer` — one registration step populates both surfaces,
so they cannot drift. -/
theorem registry_single_source (ds : List (String × String × List String))
    (j : JsonRpcRequest) (events : List (Nat × Json))
    (hid : ¬ j.id = "") (hm : j.method = "tools/list") :
    rpcResponse (applyRegs ds).toolRegistry j events
      = RpcOut.toolsList (applyRegs ds).toolRegistry
    ∧ ∀ n, n ∈ (applyRegs ds).toolRegistry.map Prod.fst
        ↔ n ∈ (applyRegs ds).stdioTools.map Prod.fst := by
  constructor
  · simp only [rpcResponse, if_neg hid, if_pos hm]
  · exact applyRegs_keys_aux ds emptyServer (by simp [emptyServer])

/-- Witness for `registry_single_source`, at the concrete startup
registration sequence. -/
theorem registry_single_source_witness :
    rpcResponse startupServer.toolRegistry
        { jsonrpc := "2.0", method := "tools/list", id := "L1", params := none } []
      = RpcOut.toolsList startupServer.toolRegistry
    ∧ ("add-edge" ∈ startupServer.toolRegistry.map Prod.fst
        ↔ "add-edge" ∈ startupServer.stdioTools.map Prod.fst) :=
  ⟨(registry_single_source startupDecls
      { jsonrpc := "2.0", method := "tools/list", id := "L1", params := none } []
      (by decide) rfl).1,
   (registry_single_source startupDecls
      { jsonrpc := "2.0", method := "tools/list", id := "L1", params := none } []
      (by decide) rfl).2 "add-edge"⟩

/-! ## C8 -/

/-- C8 counterexample: the frame `"null"` IS valid JSON and parses to
`null`, which has no `method` field, yet it is not delivered to the bus
as a reply: the handler's `json.method` access throws a `TypeError` on
`null`, and the surrounding `catch` logs it as invalid and drops it —
refuting the claim's "parses as JSON with any other (or no) method is
delivered to the bus" arm at this input. -/
theorem ws_null_frame_dropped :
    (wsOnMessage (some Json.null)).emitted = []
    ∧ (wsOnMessage (some Json.null)).loggedInvalid = true :=
  ⟨rfl, rfl⟩

/-- C8 amended: for every WebSocket frame — with `parsed` the outcome of
`JSON.parse` under the handler's `try`/`catch` — a message whose `method`
is the handshake sentinel `client-ready` is not dispatched as a reply;
any other successfully parsed NON-NULL message (other method, non-string
method or no method at all) is emitted on the `BUS_REPLY` stream exactly
as parsed; a frame parsing to `null` is logged and dropped (the
`json.method` access throws a `TypeError` that the same `catch`
swallows); and a frame that is not valid JSON is logged and dropped —
in every case the handler completes normally with no exception. -/
theorem ws_message_dispatch (parsed : Option Json) :
    (∀ j, parsed = some j → jsonGet j "method" = some (Json.str "client-ready") →
      (wsOnMessage parsed).emitted = [] ∧ (wsOnMessage parsed).loggedInvalid = false)
    ∧ (∀ j, parsed = some j → ¬ j = Json.null →
        ¬ jsonGet j "method" = some (Json.str "client-ready") →
      (wsOnMessage parsed).emitted = [j] ∧ (wsOnMessage parsed).loggedInvalid = false)
    ∧ (parsed = some Json.null →
      (wsOnMessage parsed).emitted = [] ∧ (wsOnMessage parsed).loggedInvalid = true)
    ∧ (parsed = none →
      (wsOnMessage parsed).emitted = [] ∧ (wsOnMessage parsed).loggedInvalid = true) := by
  refine ⟨?_, ?_, ?_, ?_⟩
  · rintro j rfl hm
    cases j with
    | null => simp [jsonGet] at hm
    | bool b => simp [jsonGet] at hm
    | num n => simp [jsonGet] at hm
    | str s => simp [jsonGet] at hm
    | arr l => simp [jsonGet] at hm
    | obj f => simp [wsOnMessage, hm]
  · rintro j rfl hnull hm
    cases j with
    | null => exact absurd rfl hnull
    | bool b => simp [wsOnMessage, jsonGet, wsDispatchReply]
    | num n => simp [wsOnMessage, jsonGet, wsDispatchReply]
    | str s => simp [wsOnMessage, jsonGet, wsDispatchReply]
    | arr l => simp [wsOnMessage, jsonGet, wsDispatchReply]
    | obj f =>
      cases hg : jsonGet (Json.obj f) "method" with
      | none => simp [wsOnMessage, hg, wsDispatchReply]
      | some v =>
        cases v with
        | str s =>
          have hs : ¬ s = "client-ready" := by
            rintro rfl
            exact hm hg
          simp [wsOnMessage, hg, hs, wsDispatchReply]
        | null => simp [wsOnMessage, hg, wsDispatchReply]
        | bool b => simp [wsOnMessage, hg, wsDispatchReply]
        | num n => simp [wsOnMessage, hg, wsDispatchReply]
        | arr l => simp [wsOnMessage, hg, wsDispatchReply]
        | obj f2 => simp [wsOnMessage, hg, wsDispatchReply]
  · rintro rfl
    simp [wsOnMessage]
  · rintro rfl
    simp [wsOnMessage]

/-- The `client-ready` handshake message. -/
def clientReadyMsg : Json :=
  Json.obj [("method", Json.str "client-ready")]

/-- Witness for `ws_message_dispatch`: the handshake is swallowed, a
(non-null) reply envelope with no `method` field is emitted as-is, a
parsed `null` only logs, and a parse failure only logs. -/
theorem ws_message_dispatch_witness :
    (wsOnMessage (some clientReadyMsg)).emitted = []
    ∧ (wsOnMessage (some (replyEnvelope "z" (Json.str "ok")))).emitted
        = [replyEnvelope "z" (Json.str "ok")]
    ∧ (wsOnMessage (some Json.null)).loggedInvalid = true
    ∧ (wsOnMessage none).loggedInvalid = true :=
  ⟨((ws_message_dispatch (some clientReadyMsg)).1 clientReadyMsg rfl rfl).1,
   ((ws_message_dispatch (some (replyEnvelope "z" (Json.str "ok")))).2.1
      (replyEnvelope "z" (Json.str "ok")) rfl
      (by simp [replyEnvelope])
      (by
        intro hcontr
        rw [show jsonGet (replyEnvelope "z" (Json.str "ok")) "method" = none from rfl]
          at hcontr
        exact Option.noConfusion hcontr)).1,
   ((ws_message_dispatch (some Json.null)).2.2.1 rfl).2,
   ((ws_message_dispatch none).2.2.2 rfl).2⟩

/-! ## C9 -/

/-- C9: `strip_internal_fields` returns an object whose keys are exactly
the input's keys that do not start with `"__"` (in input order), each
retained key bound to the same value as in the input, and every
`"__"`-prefixed key absent from the output.  The function only filters —
the input object itself is never written to. -/
theorem strip_internal_fields_spec (obj : List (String × Json)) :
    ((strip_internal_fields obj).map Prod.fst
      = (obj.map Prod.fst).filter (fun k => !(strStartsWith k "__")))
    ∧ (∀ k, strStartsWith k "__" = false →
        (strip_internal_fields obj).lookup k = obj.lookup k)
    ∧ (∀ k, strStartsWith k "__" = true →
        (strip_internal_fields obj).lookup k = none) := by
  refine ⟨?_, ?_, ?_⟩
  · induction obj with
    | nil => rfl
    | cons hd tl ih =>
      obtain ⟨k', v'⟩ := hd
      by_cases hp : strStartsWith k' "__" = true
      · simp [strip_internal_fields, List.filter, hp]
        simpa [strip_internal_fields] using ih
      · simp only [Bool.not_eq_true] at hp
        simp [strip_internal_fields, List.filter, hp]
        simpa [strip_internal_fields] using ih
  · intro k hk
    exact lookup_filter_true (fun k => !(strStartsWith k "__")) obj k (by simp [hk])
  · intro k hk
    exact lookup_filter_false (fun k => !(strStartsWith k "__")) obj k (by simp [hk])

/-- The input object of the repository's own `strip_internal_fields`
test. -/
def mixedFieldsObj : List (String × Json) :=
  [("__private", Json.str "secret-data"), ("publicField", Json.str "visible"),
   ("count", Json.num 42)]

/-- Witness for `strip_internal_fields_spec`: the public keys keep their
values and the `"__"`-prefixed key is gone. -/
theorem strip_internal_fields_spec_witness :
    (strip_internal_fields mixedFieldsObj).lookup "publicField"
      = some (Json.str "visible")
    ∧ (strip_internal_fields mixedFieldsObj).lookup "__private" = none :=
  ⟨((strip_internal_fields_spec mixedFieldsObj).2.1 "publicField" rfl).trans rfl,
   (strip_internal_fields_spec mixedFieldsObj).2.2 "__private" rfl⟩

/-! ## C10 -/

/-- C10: one emission of a non-null reply on the `BUS_REPLY` stream
reaches every listener registered through `on_reply_from_extension` —
one invocation per registration, whatever event name it was registered
under — and each listener is invoked with the reply object after its
`__event` field has been set to that listener's own registration name,
all other fields untouched; a null emission reaches no listener. -/
theorem bus_delivers_to_all_listeners (regs : List (String × Nat))
    (r : List (String × Json)) :
    ((onReplyEmission regs (some r)).length = regs.length)
    ∧ (∀ en l, (en, l) ∈ regs →
        (l, recordSet r "__event" (Json.str en)) ∈ onReplyEmission regs (some r))
    ∧ (∀ en, (recordSet r "__event" (Json.str en)).lookup "__event"
        = some (Json.str en))
    ∧ (∀ en k, ¬ k = "__event" →
        (recordSet r "__event" (Json.str en)).lookup k = r.lookup k)
    ∧ onReplyEmission regs none = [] := by
  refine ⟨?_, ?_, ?_, ?_, ?_⟩
  · simp [onReplyEmission]
  · intro en l h
    exact List.mem_map.mpr ⟨(en, l), h, rfl⟩
  · intro en
    exact lookup_recordSet_self r "__event" (Json.str en)
  · intro en k hk
    exact lookup_recordSet_ne r "__event" k (Json.str en) hk
  · rfl

/-- Witness for `bus_delivers_to_all_listeners`: with listeners 1 and 2
registered under `event1` and `event2`, both are invoked on one emission,
listener 2 sees `__event = "event2"` even though the emission was not
"for" it, and the reply's own `data` field is unchanged. -/
theorem bus_delivers_to_all_listeners_witness :
    ((onReplyEmission [("event1", 1), ("event2", 2)]
        (some [("data", Json.str "t")])).length = 2)
    ∧ ((2, recordSet [("data", Json.str "t")] "__event" (Json.str "event2"))
        ∈ onReplyEmission [("event1", 1), ("event2", 2)]
            (some [("data", Json.str "t")]))
    ∧ ((recordSet [("data", Json.str "t")] "__event" (Json.str "event2")).lookup "data"
        = some (Json.str "t")) :=
  ⟨(bus_delivers_to_all_listeners [("event1", 1), ("event2", 2)]
      [("data", Json.str "t")]).1,
   (bus_delivers_to_all_listeners [("event1", 1), ("event2", 2)]
      [("data", Json.str "t")]).2.1 "event2" 2 (by decide),
   ((bus_delivers_to_all_listeners [("event1", 1), ("event2", 2)]
      [("data", Json.str "t")]).2.2.2.1 "event2" "data" (by decide)).trans rfl⟩

end DrawioMcp
